import Mathlib

/-!
Shallow embedding of the epd2in13d e-paper driver.

The embedding covers src/epd2in13d/mod.rs and src/epd2in13d/command.rs.
Bus traffic is modelled as a list of observable events; a driver operation
is a function from the driver state (background color and refresh mode) to
the pair of the emitted event trace and the resulting state, where a result
of none stands for a panic (assert failure or a todo marker): the trace
component then holds exactly the events emitted before the panic.

Parts of the crate that the two source files use but that are not
themselves available (the color module, the display interface, the
buffer_len helper, the RefreshLut enumeration, and the LUT constants in
constants.rs) are modelled from the specification; each such definition
carries a doc comment saying so.
-/

namespace Epd2in13d

/-- SPI command opcodes of the panel controller, from
src/epd2in13d/command.rs (enum Command with explicit discriminants). -/
inductive Command where
  | PanelSetting
  | PowerSetting
  | PowerOff
  | PowerOffSequenceSetting
  | PowerOn
  | PowerOnMeasure
  | BoosterSoftStart
  | DeepSleep
  | DisplayStartTransmission1
  | DataStop
  | DisplayRefresh
  | DisplayStartTransmission2
  | AutoSequence
  | VcomLut
  | WhiteToWhiteLut
  | BlackToWhiteLut
  | WhiteToBlackLut
  | BlackToBlackLut
  | LutOption
  | PllControl
  | TemperatureSensorCalibration
  | TemperatureSensorSelection
  | TemperatureSensorWrite
  | TemperatureSensorRead
  | PanelBreakCheck
  | VcomAndDataIntervalSetting
  | LowerPowerDetection
  | TconSetting
  | ResolutionSetting
  | GateSourceStartSetting
  | Revision
  | GetStatus
  | AutoMeasurementVcom
  | ReadVcomValue
  | VcmDcSetting
  | PartialWindow
  | PartialIn
  | PartialOut
  | ProgramMode
  | ActiveProgramming
  | ReadOtp
  | CascadeSetting
  | PowerSaving
  | LvdVoltageSelect
  | ForceTemperature
deriving DecidableEq

/-- The one-byte opcode value of each command, from the explicit
discriminants in src/epd2in13d/command.rs. -/
def Command.opcode : Command → Nat
  | .PanelSetting => 0x00
  | .PowerSetting => 0x01
  | .PowerOff => 0x02
  | .PowerOffSequenceSetting => 0x03
  | .PowerOn => 0x04
  | .PowerOnMeasure => 0x05
  | .BoosterSoftStart => 0x06
  | .DeepSleep => 0x07
  | .DisplayStartTransmission1 => 0x10
  | .DataStop => 0x11
  | .DisplayRefresh => 0x12
  | .DisplayStartTransmission2 => 0x13
  | .AutoSequence => 0x17
  | .VcomLut => 0x20
  | .WhiteToWhiteLut => 0x21
  | .BlackToWhiteLut => 0x22
  | .WhiteToBlackLut => 0x23
  | .BlackToBlackLut => 0x24
  | .LutOption => 0x2a
  | .PllControl => 0x30
  | .TemperatureSensorCalibration => 0x40
  | .TemperatureSensorSelection => 0x41
  | .TemperatureSensorWrite => 0x42
  | .TemperatureSensorRead => 0x43
  | .PanelBreakCheck => 0x44
  | .VcomAndDataIntervalSetting => 0x50
  | .LowerPowerDetection => 0x51
  | .TconSetting => 0x60
  | .ResolutionSetting => 0x61
  | .GateSourceStartSetting => 0x65
  | .Revision => 0x70
  | .GetStatus => 0x71
  | .AutoMeasurementVcom => 0x80
  | .ReadVcomValue => 0x81
  | .VcmDcSetting => 0x82
  | .PartialWindow => 0x90
  | .PartialIn => 0x91
  | .PartialOut => 0x92
  | .ProgramMode => 0xa0
  | .ActiveProgramming => 0xa1
  | .ReadOtp => 0xa2
  | .CascadeSetting => 0xe0
  | .PowerSaving => 0xe3
  | .LvdVoltageSelect => 0xe4
  | .ForceTemperature => 0xe5

/-- One observable action on the bus or on the host delay/busy
capabilities: a hardware reset pulse with its two hold times in
microseconds, a command byte, a run of data bytes, a timed delay in
microseconds, or a busy-poll until the controller reports idle (recording
the configured busy polarity and the status-query opcode used). -/
inductive Event where
  | reset (hold1 hold2 : Nat)
  | cmd (opcode : Nat)
  | data (bytes : List Nat)
  | delayUs (us : Nat)
  | waitUntilIdle (isBusyLow : Bool) (statusOpcode : Nat)
deriving DecidableEq

/-- Modelled from the spec: the color module is not under src/. The spec
describes Background Color as a one-bit enumeration with two variants
(section 3), each with a known byte pattern used to flood-fill a plane. -/
inductive Color where
  | Black
  | White
deriving DecidableEq

/-- Modelled from the spec: the byte pattern of each color, all bits clear
for Black and all bits set for White, consistent with the one-bit pixel
encoding and with the complement relation the spec states between the two
planes in clear_frame (section 8). -/
def Color.get_byte_value : Color → Nat
  | .Black => 0x00
  | .White => 0xff

/-- Modelled from the spec: the RefreshLut enumeration lives in the traits
module, not under src/. The spec calls it Refresh Mode, enumeration
{Full, Quick} (section 3). -/
inductive RefreshLut where
  | Full
  | Quick
deriving DecidableEq

/-- Modelled from the spec: buffer_len is a crate-level helper not under
src/. The spec derives the expected buffer length as
ceil(width / 8) * height bytes (section 3, Panel Geometry). -/
def buffer_len (width height : Nat) : Nat :=
  ((width + 7) / 8) * height

/-- Modelled from the spec: the ten waveform tables live in constants.rs,
which is not under src/. The spec describes them as fixed byte arrays, one
per refresh mode per transition type (section 4.4), without giving their
contents, so the development is parametric in them. -/
structure LutStore where
  LUT_FULL_VCOM : List Nat
  LUT_FULL_WW : List Nat
  LUT_FULL_BW : List Nat
  LUT_FULL_WB : List Nat
  LUT_FULL_BB : List Nat
  LUT_PART_VCOM : List Nat
  LUT_PART_WW : List Nat
  LUT_PART_BW : List Nat
  LUT_PART_WB : List Nat
  LUT_PART_BB : List Nat

/-- A concrete table store used to instantiate parametric theorems at
concrete inputs; the table contents are irrelevant to every claim. -/
def sampleLuts : LutStore :=
  ⟨[], [], [], [], [], [], [], [], [], []⟩

namespace Interface

/-- Modelled from the spec: DisplayInterface is not under src/. Sending a
bare command emits its opcode byte in a command cycle (section 4.1). -/
def cmd (c : Command) : List Event :=
  [Event.cmd c.opcode]

/-- Modelled from the spec: a command followed by its payload bytes, with
no operation interleaved (section 4.1). -/
def cmd_with_data (c : Command) (d : List Nat) : List Event :=
  [Event.cmd c.opcode, Event.data d]

/-- Modelled from the spec: a data write of count copies of one byte,
used to flood-fill a plane (section 4.1, send_repeated_byte). -/
def data_x_times (b : Nat) (count : Nat) : List Event :=
  [Event.data (List.replicate count b)]

/-- Modelled from the spec: the hardware reset pulse with its two hold
times (section 4.3, step 1). -/
def reset (hold1 hold2 : Nat) : List Event :=
  [Event.reset hold1 hold2]

/-- Modelled from the spec: busy polling until the controller reports
idle, via a status-query command when needed (section 4.2). -/
def wait_until_idle_with_cmd (isBusyLow : Bool) (c : Command) : List Event :=
  [Event.waitUntilIdle isBusyLow c.opcode]

end Interface

/-- Width of the display (mod.rs). -/
def WIDTH : Nat := 104

/-- Height of the display (mod.rs). -/
def HEIGHT : Nat := 212

/-- Busy-line polarity constant IS_BUSY_LOW from mod.rs. -/
def IS_BUSY_LOW : Bool := false

/-- Default background color (mod.rs). -/
def DEFAULT_BACKGROUND_COLOR : Color := Color.White

/-- The persistent driver state: the background color and the refresh
mode field, as in struct Epd2in13 (mod.rs). The connection interface is
stateless in this model; its effects are the emitted events. -/
structure Epd2in13 where
  background_color : Color
  refresh : RefreshLut
deriving DecidableEq

/-- Bitwise complement of a byte, the model of the Rust operator ! on u8
as used in clear_frame. -/
def u8_not (b : Nat) : Nat := 255 - b % 256

/-- wait_until_idle from mod.rs: defers to the interface busy poll with
IS_BUSY_LOW and the GetStatus command. -/
def wait_until_idle : List Event :=
  Interface.wait_until_idle_with_cmd IS_BUSY_LOW Command.GetStatus

/-- turn_on_display from mod.rs: Display-Refresh command, a 100000
microsecond delay, then wait-until-idle. -/
def turn_on_display : List Event :=
  Interface.cmd Command.DisplayRefresh
    ++ [Event.delayUs 100000]
    ++ wait_until_idle

/-- init from mod.rs: hardware reset, then the fixed configuration
sequence, with idle waits after Power-On and at the end. -/
def init : List Event :=
  Interface.reset 10000 10000
    ++ Interface.cmd_with_data Command.PowerSetting [0x03, 0x00, 0x2b, 0x2b, 0x03]
    ++ Interface.cmd_with_data Command.BoosterSoftStart [0x17, 0x17, 0x17]
    ++ Interface.cmd Command.PowerOn
    ++ wait_until_idle
    ++ Interface.cmd_with_data Command.PanelSetting [0xbf, 0x0e]
    ++ Interface.cmd_with_data Command.PllControl [0x3a]
    ++ Interface.cmd_with_data Command.ResolutionSetting
        [WIDTH % 256, (HEIGHT >>> 8) &&& 0xff, HEIGHT &&& 0xff]
    ++ Interface.cmd_with_data Command.VcmDcSetting [0x28]
    ++ wait_until_idle

/-- new from mod.rs: the initial state (default background, Full mode)
together with the init trace. -/
def new : Epd2in13 × List Event :=
  (⟨DEFAULT_BACKGROUND_COLOR, RefreshLut.Full⟩, init)

/-- set_background_color from mod.rs. -/
def set_background_color (s : Epd2in13) (c : Color) : Epd2in13 :=
  ⟨c, s.refresh⟩

/-- set_lut from mod.rs: in Quick mode first a VCOM-DC override with
payload 0x00, then in every mode the VCOM-and-data-interval setting with
payload 0xb7 followed by the five LUT writes in fixed order, with the
table family chosen by the mode (Full or absent selects the full family,
Quick the partial family). The refresh mode field is not modified. -/
def set_lut (L : LutStore) (refresh_rate : Option RefreshLut) : List Event :=
  match refresh_rate with
  | some RefreshLut.Full | none =>
      Interface.cmd_with_data Command.VcomAndDataIntervalSetting [0xb7]
        ++ Interface.cmd_with_data Command.VcomLut L.LUT_FULL_VCOM
        ++ Interface.cmd_with_data Command.WhiteToWhiteLut L.LUT_FULL_WW
        ++ Interface.cmd_with_data Command.BlackToWhiteLut L.LUT_FULL_BW
        ++ Interface.cmd_with_data Command.WhiteToBlackLut L.LUT_FULL_WB
        ++ Interface.cmd_with_data Command.BlackToBlackLut L.LUT_FULL_BB
  | some RefreshLut.Quick =>
      Interface.cmd_with_data Command.VcmDcSetting [0x00]
        ++ Interface.cmd_with_data Command.VcomAndDataIntervalSetting [0xb7]
        ++ Interface.cmd_with_data Command.VcomLut L.LUT_PART_VCOM
        ++ Interface.cmd_with_data Command.WhiteToWhiteLut L.LUT_PART_WW
        ++ Interface.cmd_with_data Command.BlackToWhiteLut L.LUT_PART_BW
        ++ Interface.cmd_with_data Command.WhiteToBlackLut L.LUT_PART_WB
        ++ Interface.cmd_with_data Command.BlackToBlackLut L.LUT_PART_BB

/-- update_frame from mod.rs: after the buffer-length assert the body is
an unconditional todo marker, so the call panics on both paths before any
byte reaches the transport; the assert distinguishes the rejection of a
wrong-length buffer from the todo panic on a correct one. -/
def update_frame (s : Epd2in13) (buffer : List Nat) :
    List Event × Option Epd2in13 :=
  if buffer.length = buffer_len WIDTH HEIGHT then
    ([], none)
  else
    ([], none)

/-- update_partial_frame from mod.rs: asserts that width * height / 8
(computed in 32-bit arithmetic, hence the reduction modulo 2 ^ 32) equals
the buffer length and that the refresh mode field is Full; the remainder
of the body is commented out, so a call that passes both asserts emits
nothing and returns the state unchanged. The x and y arguments are
unused. -/
def update_partial_frame (s : Epd2in13) (buffer : List Nat)
    (x y width height : Nat) : List Event × Option Epd2in13 :=
  if width * height % 4294967296 / 8 = buffer.length then
    if s.refresh = RefreshLut.Full then
      ([], some s)
    else
      ([], none)
  else
    ([], none)

/-- display_frame from mod.rs: the body is an unconditional todo marker,
so every call panics immediately with no bus traffic. -/
def display_frame (s : Epd2in13) : List Event × Option Epd2in13 :=
  ([], none)

/-- update_and_display_frame from mod.rs: Display-Start-Transmission-1
with the background byte repeated over the full buffer length,
Display-Start-Transmission-2 with the caller buffer, set_lut with no
override, then turn_on_display. The state is returned unchanged. -/
def update_and_display_frame (L : LutStore) (s : Epd2in13)
    (buffer : List Nat) : List Event × Option Epd2in13 :=
  let color := s.background_color.get_byte_value
  (Interface.cmd Command.DisplayStartTransmission1
    ++ Interface.data_x_times color (buffer_len WIDTH HEIGHT)
    ++ Interface.cmd_with_data Command.DisplayStartTransmission2 buffer
    ++ set_lut L none
    ++ turn_on_display, some s)

/-- clear_frame from mod.rs: Display-Start-Transmission-1 with the
background byte repeated over the full buffer length,
Display-Start-Transmission-2 with the complement byte repeated the same
number of times, set_lut with no override, then turn_on_display. The
state is returned unchanged. -/
def clear_frame (L : LutStore) (s : Epd2in13) :
    List Event × Option Epd2in13 :=
  let color := s.background_color.get_byte_value
  (Interface.cmd Command.DisplayStartTransmission1
    ++ Interface.data_x_times color (buffer_len WIDTH HEIGHT)
    ++ Interface.cmd Command.DisplayStartTransmission2
    ++ Interface.data_x_times (u8_not color) (buffer_len WIDTH HEIGHT)
    ++ set_lut L none
    ++ turn_on_display, some s)

/-- Claim C1: for every 2756-byte buffer, update_and_display_frame emits
exactly the Display-Start-Transmission-1 command with the background byte
repeated 2756 times, the Display-Start-Transmission-2 command with the
caller buffer verbatim, the full-refresh LUT load (the absent mode
override resolves to the full family), the Display-Refresh command, a
100 millisecond settle delay, and a wait-until-idle. -/
theorem C1_update_and_display_frame_transcript (L : LutStore) (s : Epd2in13)
    (buffer : List Nat) (h : buffer.length = 2756) :
    update_and_display_frame L s buffer =
      ([Event.cmd 0x10,
        Event.data (List.replicate 2756 s.background_color.get_byte_value),
        Event.cmd 0x13, Event.data buffer,
        Event.cmd 0x50, Event.data [0xb7],
        Event.cmd 0x20, Event.data L.LUT_FULL_VCOM,
        Event.cmd 0x21, Event.data L.LUT_FULL_WW,
        Event.cmd 0x22, Event.data L.LUT_FULL_BW,
        Event.cmd 0x23, Event.data L.LUT_FULL_WB,
        Event.cmd 0x24, Event.data L.LUT_FULL_BB,
        Event.cmd 0x12, Event.delayUs 100000,
        Event.waitUntilIdle false 0x71], some s) :=
  rfl

/-- Claim C1 witness: the transcript at the all-zero 2756-byte buffer,
the sample table store and the initial state. -/
theorem C1_witness :
    update_and_display_frame sampleLuts ⟨Color.White, RefreshLut.Full⟩
        (List.replicate 2756 0) =
      ([Event.cmd 0x10, Event.data (List.replicate 2756 255),
        Event.cmd 0x13, Event.data (List.replicate 2756 0),
        Event.cmd 0x50, Event.data [0xb7],
        Event.cmd 0x20, Event.data [], Event.cmd 0x21, Event.data [],
        Event.cmd 0x22, Event.data [], Event.cmd 0x23, Event.data [],
        Event.cmd 0x24, Event.data [],
        Event.cmd 0x12, Event.delayUs 100000,
        Event.waitUntilIdle false 0x71],
       some ⟨Color.White, RefreshLut.Full⟩) :=
  C1_update_and_display_frame_transcript sampleLuts
    ⟨Color.White, RefreshLut.Full⟩ (List.replicate 2756 0)
    (List.length_replicate 2756 0)

/-- Claim C2: init emits, in order, the reset pulse with two equal
non-zero hold times, Power-Setting with 5 bytes, Booster-Soft-Start with
3 bytes, Power-On with no payload then a wait-until-idle, Panel-Setting
with 2 bytes, PLL-Control with 1 byte, Resolution-Setting with the 3-byte
payload [104, 0, 212], VCOM-DC-Setting with 1 byte, and a final
wait-until-idle. -/
theorem C2_init_transcript :
    init =
      [Event.reset 10000 10000,
       Event.cmd 0x01, Event.data [0x03, 0x00, 0x2b, 0x2b, 0x03],
       Event.cmd 0x06, Event.data [0x17, 0x17, 0x17],
       Event.cmd 0x04, Event.waitUntilIdle false 0x71,
       Event.cmd 0x00, Event.data [0xbf, 0x0e],
       Event.cmd 0x30, Event.data [0x3a],
       Event.cmd 0x61, Event.data [104, 0, 212],
       Event.cmd 0x82, Event.data [0x28],
       Event.waitUntilIdle false 0x71] := by
  decide

/-- Claim C3: set_lut emits the VCOM-DC override with payload 0x00 first
exactly when the mode argument is Quick, and in every mode then writes
the VCOM-and-data-interval setting with payload 0xb7 followed by the
VCOM, white-to-white, black-to-white, white-to-black and black-to-black
LUTs in that fixed order, taking the full family when the mode is Full or
absent and the partial family when it is Quick. -/
theorem C3_set_lut_transcript (L : LutStore) :
    set_lut L none =
      [Event.cmd 0x50, Event.data [0xb7],
       Event.cmd 0x20, Event.data L.LUT_FULL_VCOM,
       Event.cmd 0x21, Event.data L.LUT_FULL_WW,
       Event.cmd 0x22, Event.data L.LUT_FULL_BW,
       Event.cmd 0x23, Event.data L.LUT_FULL_WB,
       Event.cmd 0x24, Event.data L.LUT_FULL_BB]
    ∧ set_lut L (some RefreshLut.Full) = set_lut L none
    ∧ set_lut L (some RefreshLut.Quick) =
      [Event.cmd 0x82, Event.data [0x00],
       Event.cmd 0x50, Event.data [0xb7],
       Event.cmd 0x20, Event.data L.LUT_PART_VCOM,
       Event.cmd 0x21, Event.data L.LUT_PART_WW,
       Event.cmd 0x22, Event.data L.LUT_PART_BW,
       Event.cmd 0x23, Event.data L.LUT_PART_WB,
       Event.cmd 0x24, Event.data L.LUT_PART_BB] :=
  ⟨rfl, rfl, rfl⟩

/-- Claim C4: for every driver state, clear_frame emits
Display-Start-Transmission-1 with the background byte repeated 2756
times, Display-Start-Transmission-2 with the bitwise complement of that
byte repeated 2756 times, the full-family LUT load regardless of the
prior refresh mode, and the refresh trigger sequence, leaving the state
unchanged. -/
theorem C4_clear_frame_transcript (L : LutStore) (s : Epd2in13) :
    clear_frame L s =
      ([Event.cmd 0x10,
        Event.data (List.replicate 2756 s.background_color.get_byte_value),
        Event.cmd 0x13,
        Event.data
          (List.replicate 2756 (u8_not s.background_color.get_byte_value)),
        Event.cmd 0x50, Event.data [0xb7],
        Event.cmd 0x20, Event.data L.LUT_FULL_VCOM,
        Event.cmd 0x21, Event.data L.LUT_FULL_WW,
        Event.cmd 0x22, Event.data L.LUT_FULL_BW,
        Event.cmd 0x23, Event.data L.LUT_FULL_WB,
        Event.cmd 0x24, Event.data L.LUT_FULL_BB,
        Event.cmd 0x12, Event.delayUs 100000,
        Event.waitUntilIdle false 0x71], some s) :=
  rfl

/-- Claim C5 counterexample: a call of update_partial_frame that passes
both asserts completes with the refresh mode field still Full, not
Quick, refuting the claim that every completed call leaves it Quick. -/
theorem C5_counterexample :
    (update_partial_frame ⟨Color.White, RefreshLut.Full⟩ [0] 0 0 8 1).2 =
        some ⟨Color.White, RefreshLut.Full⟩
    ∧ RefreshLut.Full ≠ RefreshLut.Quick := by
  decide

/-- Claim C5 as amended: update_frame never completes (it panics on every
input), and every completed call of update_partial_frame returns the
state unchanged, so its refresh mode field reads Full, the value its own
precondition requires. -/
theorem C5_amended_refresh_mode :
    (∀ (s : Epd2in13) (b : List Nat), (update_frame s b).2 = none)
    ∧ (∀ (s : Epd2in13) (b : List Nat) (x y w h : Nat) (s2 : Epd2in13),
        (update_partial_frame s b x y w h).2 = some s2 →
          s2 = s ∧ s2.refresh = RefreshLut.Full) := by
  constructor
  · intro s b
    unfold update_frame
    rw [ite_self]
  · intro s b x y w h s2 hdone
    unfold update_partial_frame at hdone
    by_cases hlen : w * h % 4294967296 / 8 = b.length
    · rw [if_pos hlen] at hdone
      by_cases hfull : s.refresh = RefreshLut.Full
      · rw [if_pos hfull] at hdone
        have hs : s = s2 := Option.some.inj hdone
        exact ⟨hs.symm, hs ▸ hfull⟩
      · rw [if_neg hfull] at hdone
        exact absurd hdone (by simp)
    · rw [if_neg hlen] at hdone
      exact absurd hdone (by simp)

/-- Claim C5 amended witness: the amended theorem applied at the concrete
completed call of the counterexample state. -/
theorem C5_amended_witness :
    (⟨Color.White, RefreshLut.Full⟩ : Epd2in13) =
        ⟨Color.White, RefreshLut.Full⟩
    ∧ (⟨Color.White, RefreshLut.Full⟩ : Epd2in13).refresh = RefreshLut.Full :=
  C5_amended_refresh_mode.2 ⟨Color.White, RefreshLut.Full⟩ [0] 0 0 8 1
    ⟨Color.White, RefreshLut.Full⟩ (by decide)

/-- Claim C6 (code bug evidence): display_frame panics immediately on
every state, emitting no bus traffic at all, instead of loading the LUTs
for the current mode and triggering the refresh as the claim states. -/
theorem C6_display_frame_is_stub (s : Epd2in13) :
    display_frame s = ([], none) :=
  rfl

/-- Claim C7 (code bug evidence): at a 2756-byte buffer the composition
of update_frame and display_frame diverges at its first step with an
empty trace, while update_and_display_frame completes with a non-empty
transcript, so the two are not observably equal. -/
theorem C7_composition_diverges :
    update_frame ⟨Color.White, RefreshLut.Full⟩ (List.replicate 2756 0) =
        ([], none)
    ∧ (update_and_display_frame sampleLuts ⟨Color.White, RefreshLut.Full⟩
        (List.replicate 2756 0)).2 = some ⟨Color.White, RefreshLut.Full⟩
    ∧ (update_and_display_frame sampleLuts ⟨Color.White, RefreshLut.Full⟩
        (List.replicate 2756 0)).1 ≠ [] := by
  refine ⟨?_, rfl, ?_⟩
  · unfold update_frame
    rw [ite_self]
  · show Event.cmd 0x10 :: _ ≠ []
    exact List.cons_ne_nil _ _

/-- Claim C8: the expected buffer length for the 104 by 212 geometry is
2756 bytes, and update_frame with a buffer of any other length terminates
fatally (no result is produced) before any byte is sent to the
transport. -/
theorem C8_update_frame_rejects_bad_length :
    buffer_len WIDTH HEIGHT = 2756
    ∧ ∀ (s : Epd2in13) (b : List Nat), b.length ≠ 2756 →
        update_frame s b = ([], none) := by
  refine ⟨rfl, ?_⟩
  intro s b hb
  unfold update_frame
  rw [ite_self]

/-- Claim C8 witness: the empty buffer is rejected with an empty trace
and no resulting state. -/
theorem C8_witness :
    update_frame ⟨Color.White, RefreshLut.Full⟩ [] = ([], none) :=
  C8_update_frame_rejects_bad_length.2 ⟨Color.White, RefreshLut.Full⟩ []
    (by decide)

/-- Claim C9 counterexample: with x = 1 and width = 4, neither a multiple
of 8, but a matching buffer length and Full mode, update_partial_frame
completes successfully instead of rejecting, refuting the claimed
alignment check. -/
theorem C9_counterexample :
    update_partial_frame ⟨Color.White, RefreshLut.Full⟩ [0] 1 0 4 2 =
        ([], some ⟨Color.White, RefreshLut.Full⟩)
    ∧ 1 % 8 ≠ 0 ∧ 4 % 8 ≠ 0 := by
  decide

/-- Claim C9 as amended: update_partial_frame rejects fatally, with no
byte sent to the transport, every call in which the buffer length differs
from width * height / 8 (in 32-bit arithmetic) or the refresh mode field
is not Full; the alignment of x and width is not checked. -/
theorem C9_amended_reject_conditions (s : Epd2in13) (b : List Nat)
    (x y w h : Nat)
    (hrej : ¬ w * h % 4294967296 / 8 = b.length
            ∨ ¬ s.refresh = RefreshLut.Full) :
    update_partial_frame s b x y w h = ([], none) := by
  unfold update_partial_frame
  rcases hrej with h1 | h2
  · rw [if_neg h1]
  · by_cases hlen : w * h % 4294967296 / 8 = b.length
    · rw [if_pos hlen, if_neg h2]
    · rw [if_neg hlen]

/-- Claim C9 amended witness: a call in Quick mode with a matching buffer
length is rejected with an empty trace. -/
theorem C9_amended_witness :
    update_partial_frame ⟨Color.White, RefreshLut.Quick⟩ [0] 0 0 8 1 =
        ([], none) :=
  C9_amended_reject_conditions ⟨Color.White, RefreshLut.Quick⟩ [0] 0 0 8 1
    (Or.inr (by decide))

/-- Claim C10: every call of update_partial_frame whose preconditions
pass (buffer length equals width * height / 8 and the refresh mode field
is Full) emits no event, returns the state unchanged, and succeeds. -/
theorem C10_update_partial_frame_noop (s : Epd2in13) (b : List Nat)
    (x y w h : Nat) (hlen : w * h % 4294967296 / 8 = b.length)
    (hfull : s.refresh = RefreshLut.Full) :
    update_partial_frame s b x y w h = ([], some s) := by
  unfold update_partial_frame
  rw [if_pos hlen, if_pos hfull]

/-- Claim C10 witness: a valid 8 by 1 window call in Full mode is a
complete no-op. -/
theorem C10_witness :
    update_partial_frame ⟨Color.Black, RefreshLut.Full⟩ [0] 0 0 8 1 =
        ([], some ⟨Color.Black, RefreshLut.Full⟩) :=
  C10_update_partial_frame_noop ⟨Color.Black, RefreshLut.Full⟩ [0] 0 0 8 1
    (by decide) (by decide)

end Epd2in13d
